import Mathlib

/-!
Shallow embedding of the subscription/payment core of the `ybiyca_bot`
Telegram subscription bot (Python sources under `src/`), together with
theorems settling the frozen claims about it.

Datetimes are modelled as natural numbers counting seconds; a calendar day
is `86400` seconds, so Python's `dt.replace(hour=0, minute=0, second=0,
microsecond=0)` is truncation to a multiple of `86400` and
`dt.replace(hour=23, minute=59, second=59)` is that truncation plus `86399`
(all datetimes stored by this code carry microsecond `0`).
Monetary amounts (Python `float`) are modelled as rationals; Python's
`round(x, n)` is modelled by rounding `x * 10^n` to an integer (the inputs
appearing in the claims are never at exact ties, where Python's
round-half-even and the model agree).
-/

/-- One second-counting timestamp day length. -/
def secondsPerDay : Nat := 86400

/-- `datetime.replace(hour=0, minute=0, second=0, microsecond=0)`:
truncate a timestamp to the start of its calendar day. -/
def startOfDay (t : Nat) : Nat := t - t % secondsPerDay

/-- `datetime.replace(hour=23, minute=59, second=59)`:
clamp a timestamp to `23:59:59` of its calendar day. -/
def endOfDay (t : Nat) : Nat := t - t % secondsPerDay + 86399

/-- Python's `round(x, n)` on the rationals in play: round `x * 10^n` to an
integer and scale back.  (Python breaks exact ties to even; no input used in
this development sits at a tie, where the two conventions agree.) -/
def roundTo (n : Nat) (x : ℚ) : ℚ := ((round (x * 10 ^ n) : ℤ) : ℚ) / 10 ^ n

/-- `TariffPlan` row as used by the DAL queries (`src/db/DALS/subscription.py`
joins on `TariffPlan.channel_id`): id, bound channel, duration in days. -/
structure TariffPlan where
  id : Nat
  channel_id : Nat
  duration_days : Nat
  deriving Repr, DecidableEq

/-- `Subscription` row (`src/db/models.py`): owner, plan, validity window,
active flag. -/
structure Subscription where
  id : Nat
  user_id : Nat
  plan_id : Nat
  start_date : Nat
  end_date : Nat
  is_active : Bool
  deriving Repr, DecidableEq

/-- `User` row: internal id and Telegram id (`user_id` column). -/
structure User where
  id : Nat
  user_id : Nat
  deriving Repr, DecidableEq

/-- `select(TariffPlan).where(TariffPlan.id == plan_id)` + `fetchrow`:
first plan with the given id. -/
def findPlan (plans : List TariffPlan) (pid : Nat) : Option TariffPlan :=
  plans.find? (fun p => p.id == pid)

/-- Channel a subscription row grants, resolved through its plan
(the SQL join `Subscription.plan_id == TariffPlan.id`). -/
def subChannel (plans : List TariffPlan) (s : Subscription) : Option Nat :=
  (findPlan plans s.plan_id).map (fun p => p.channel_id)

/-- `select(TariffPlan.id).where(TariffPlan.channel_id == c)`:
ids of all plans bound to channel `c`. -/
def planIdsOfChannel (plans : List TariffPlan) (c : Nat) : List Nat :=
  (plans.filter (fun p => p.channel_id == c)).map (fun p => p.id)

/-- Predicate of the `existing_subscription_query` in
`SubscriptionDAL.create_subscription`: row belongs to the user, is active,
and its plan is bound to channel `c`. -/
def isActiveForChannel (plans : List TariffPlan) (u c : Nat) (s : Subscription) : Bool :=
  s.user_id == u && s.is_active && subChannel plans s == some c

/-- `SubscriptionDAL.create_subscription(user_id, plan_id)`
(`src/db/DALS/subscription.py` lines 74-172).  Looks up the plan (`none` when
missing, the `ValueError`), then the first active subscription of the user on
the plan's channel.  If found, extends that row in place:
`end_date := (end_date + duration_days).replace(hour=23, minute=59, second=59)`
and `is_active := true`.  Otherwise deactivates every row of the user whose
plan is bound to the same channel and inserts a fresh row with
`start_date = today at 00:00:00` and
`end_date = (start_date + duration_days) at 23:59:59`.
Returns the updated row list and the created/extended row. -/
def create_subscription (plans : List TariffPlan) (subs : List Subscription)
    (user_id plan_id now nextId : Nat) :
    Option (List Subscription × Subscription) :=
  match findPlan plans plan_id with
  | none => none
  | some plan =>
    match subs.find? (isActiveForChannel plans user_id plan.channel_id) with
    | some existing =>
      let new_end := endOfDay (existing.end_date + plan.duration_days * secondsPerDay)
      let subs' := subs.map (fun s =>
        if s.id == existing.id then { s with end_date := new_end, is_active := true } else s)
      some (subs', { existing with end_date := new_end, is_active := true })
    | none =>
      let deactivated := subs.map (fun s =>
        if s.user_id == user_id && (planIdsOfChannel plans plan.channel_id).contains s.plan_id
        then { s with is_active := false } else s)
      let start_date := startOfDay now
      let end_date := endOfDay (start_date + plan.duration_days * secondsPerDay)
      let newSub : Subscription :=
        { id := nextId, user_id := user_id, plan_id := plan_id,
          start_date := start_date, end_date := end_date, is_active := true }
      some (deactivated ++ [newSub], newSub)

/-- `SubscriptionDAL.deactivate_expired()` (lines 174-192): bulk-update
setting `is_active := false` on rows with `is_active ∧ end_date < now`;
returns the new row list and the number of rows the update matched. -/
def deactivate_expired (subs : List Subscription) (now : Nat) :
    List Subscription × Nat :=
  (subs.map (fun s =>
      if s.is_active && decide (s.end_date < now) then { s with is_active := false } else s),
   subs.countP (fun s => s.is_active && decide (s.end_date < now)))

/-- `SubscriptionDAL.extend_subscription(subscription_id, days)`
(lines 220-258): finds the row by id; an active row is extended from its
`end_date`; an inactive row is extended from its `end_date` when
`end_date >= now at 00:00:00`, otherwise from `now at 00:00:00`; the row is
re-activated. -/
def extend_subscription (subs : List Subscription) (sid days now : Nat) :
    Option (List Subscription × Subscription) :=
  match subs.find? (fun s => s.id == sid) with
  | none => none
  | some s =>
    let nowStart := startOfDay now
    let new_end :=
      if s.is_active then endOfDay (s.end_date + days * secondsPerDay)
      else if nowStart ≤ s.end_date then endOfDay (s.end_date + days * secondsPerDay)
      else endOfDay (nowStart + days * secondsPerDay)
    let subs' := subs.map (fun t =>
      if t.id == sid then { t with end_date := new_end, is_active := true } else t)
    some (subs', { s with end_date := new_end, is_active := true })

/-- Number of active subscription rows of user `u` on channel `c`
(rows whose plan does not resolve grant no channel). -/
def activeCount (plans : List TariffPlan) (subs : List Subscription) (u c : Nat) : Nat :=
  subs.countP (isActiveForChannel plans u c)

/-- `Currency` row: id and code (RUB/USD/STARS/BTC/TON/USDT). -/
structure Currency where
  id : Nat
  code : String
  deriving Repr, DecidableEq

/-- `PaymentMethod` row: id, code, percent price modifier, fixed fee. -/
structure PaymentMethodRow where
  id : Nat
  code : String
  price_modifier : ℚ
  fixed_fee : ℚ
  deriving Repr, DecidableEq

/-- `Payment` ledger row (`src/db/models.py`). -/
structure Payment where
  id : Nat
  user_id : Nat
  plan_id : Nat
  payment_method_id : Nat
  currency_id : Nat
  amount : ℚ
  external_id : Option String
  status : String
  created_at : Nat
  processed_at : Option Nat
  notes : Option String
  deriving Repr, DecidableEq

/-- The database tables the payment/subscription core reads and writes. -/
structure DBState where
  plans : List TariffPlan
  users : List User
  currencies : List Currency
  methods : List PaymentMethodRow
  payments : List Payment
  subs : List Subscription
  deriving Repr, DecidableEq

/-- `PaymentDAL.get_payment_with_details(payment_id)`: the payment row joined
with its user, plan, currency and payment method; `none` when the row or any
joined row is missing. -/
def get_payment_with_details (st : DBState) (pid : Nat) :
    Option (Payment × User × TariffPlan × Currency × PaymentMethodRow) :=
  match st.payments.find? (fun q => q.id == pid) with
  | none => none
  | some pay =>
    match st.users.find? (fun u => u.id == pay.user_id),
          findPlan st.plans pay.plan_id,
          st.currencies.find? (fun c => c.id == pay.currency_id),
          st.methods.find? (fun m => m.id == pay.payment_method_id) with
    | some u, some pl, some c, some m => some (pay, u, pl, c, m)
    | _, _, _, _ => none

/-- `PaymentDAL.approve_payment(payment_id)` (`src/db/DALS/payment.py` lines
177-210): loads the joined row, then unconditionally updates the row with
that id to `status := "approved"`, `processed_at := now` — there is no check
of the current status.  Returns the new state and the updated row
(`none` when the joined lookup fails). -/
def approve_payment (st : DBState) (pid now : Nat) : DBState × Option Payment :=
  match get_payment_with_details st pid with
  | none => (st, none)
  | some (pay, _, _, _, _) =>
    let payments' := st.payments.map (fun q =>
      if q.id == pid then { q with status := "approved", processed_at := some now } else q)
    ({ st with payments := payments' },
     some { pay with status := "approved", processed_at := some now })

/-- `PaymentDAL.reject_payment(payment_id, reason)` (lines 212-246): same
shape as approve, writing `status := "rejected"` and `notes := reason`,
again without any status check. -/
def reject_payment (st : DBState) (pid now : Nat) (reason : Option String) :
    DBState × Option Payment :=
  match get_payment_with_details st pid with
  | none => (st, none)
  | some (pay, _, _, _, _) =>
    let payments' := st.payments.map (fun q =>
      if q.id == pid
      then { q with status := "rejected", processed_at := some now, notes := reason } else q)
    ({ st with payments := payments' },
     some { pay with status := "rejected", processed_at := some now, notes := reason })

/-- `PaymentDAL.cancel_payment(payment_id)` (lines 248-267): unconditional
update to `status := "cancelled"`, `processed_at := now` on the row with the
given id; returns whether some row matched.  No status check. -/
def cancel_payment (st : DBState) (pid now : Nat) : DBState × Bool :=
  ({ st with payments := st.payments.map (fun q =>
      if q.id == pid then { q with status := "cancelled", processed_at := some now } else q) },
   st.payments.any (fun q => q.id == pid))

/-- `PaymentDAL.get_by_external_id(external_id)` (lines 269-282). -/
def get_by_external_id (payments : List Payment) (eid : String) : Option Payment :=
  payments.find? (fun q => q.external_id == some eid)

/-- The `PaymentDAL.update_payment(payment_id=…, status="approved",
processed_at=datetime.now())` call issued by the YooKassa reconciler
(`src/payments/youkassa.py` line 136). -/
def update_payment_approved (payments : List Payment) (pid now : Nat) : List Payment :=
  payments.map (fun q =>
    if q.id == pid then { q with status := "approved", processed_at := some now } else q)

/-- `PaymentMethodDAL.calculate_price_with_method(base_price, method_id)`
(`src/db/DALS/payment_method.py` lines 508-530): applies the method's
percent modifier and fixed fee, then **always rounds to 2 decimal places**;
an unknown method id returns the base price unchanged.  The function never
sees the currency. -/
def calculate_price_with_method (methods : List PaymentMethodRow)
    (base_price : ℚ) (method_id : Nat) : ℚ :=
  match methods.find? (fun m => m.id == method_id) with
  | none => base_price
  | some m => roundTo 2 (base_price * (1 + m.price_modifier / 100) + m.fixed_fee)

/-- The `exchange_rates` table of
`TariffPriceDAL.init_default_prices_for_tariff` (`src/db/DALS/tariff_price.py`
lines 132-139). -/
def exchangeRate (code : String) : Option ℚ :=
  if code = "RUB" then some 1
  else if code = "USD" then some (11 / 1000)
  else if code = "STARS" then some 10
  else if code = "BTC" then some (4 / 100000000)
  else if code = "TON" then some (4 / 1000)
  else if code = "USDT" then some (11 / 1000)
  else none

/-- Per-currency body of the loop in
`TariffPriceDAL.init_default_prices_for_tariff` (lines 146-159): converts the
base RUB price at the fixed rate and rounds to 2 decimals for RUB/USD/USDT,
to 0 decimals for STARS, and to 8 decimals otherwise (BTC, TON). -/
def convert_default_price (code : String) (base_price : ℚ) : Option ℚ :=
  match exchangeRate code with
  | none => none
  | some rate =>
    let p := base_price * rate
    some (if code = "RUB" ∨ code = "USD" ∨ code = "USDT" then roundTo 2 p
      else if code = "STARS" then roundTo 0 p
      else roundTo 8 p)

/-- One row of the Subscription⋈TariffPlan⋈User join of
`SubscriptionDAL.get_by_telegram_id`, `none` when the joins fail or the row
does not satisfy `User.user_id == telegram_id AND Subscription.is_active`. -/
def joinRow (plans : List TariffPlan) (users : List User) (tg : Nat)
    (s : Subscription) : Option (Subscription × TariffPlan × User) :=
  match findPlan plans s.plan_id, users.find? (fun u => u.id == s.user_id) with
  | some p, some u => if u.user_id == tg && s.is_active then some (s, p, u) else none
  | _, _ => none

/-- `SubscriptionDAL.get_by_telegram_id(telegram_id)`
(`src/db/DALS/subscription.py` lines 52-71): `fetchrow` of the
Subscription⋈TariffPlan⋈User query filtered on the Telegram id and
`is_active`, i.e. the **first** joined row, with no channel filter. -/
def get_by_telegram_id (plans : List TariffPlan) (users : List User)
    (subs : List Subscription) (tg : Nat) :
    Option (Subscription × TariffPlan × User) :=
  subs.findSome? (joinRow plans users tg)

/-- `check_user_channel_access(telegram_user_id, channel_id)`
(`src/utils/channel_access.py` lines 52-71): fetches the user's (first)
active subscription and compares that one subscription's plan channel with
the queried channel. -/
def check_user_channel_access (plans : List TariffPlan) (users : List User)
    (subs : List Subscription) (tg channel_id : Nat) : Bool :=
  match get_by_telegram_id plans users subs tg with
  | none => false
  | some (_, plan, _) => plan.channel_id == channel_id

/-- One row of the spec's `hasAccess` quantifier: the row is active, belongs
to the Telegram user, and its plan grants channel `c`. -/
def hasAccessRow (plans : List TariffPlan) (users : List User) (tg c : Nat)
    (s : Subscription) : Bool :=
  s.is_active &&
  (match users.find? (fun u => u.id == s.user_id) with
   | some u => u.user_id == tg
   | none => false) &&
  subChannel plans s == some c

/-- Modelled from the spec: `hasAccess(userId, channelId)` as §4.5 words it —
true iff **some** active Subscription of that user exists whose plan's
`channel_id` matches the queried channel.  Used to compare the spec's
contract with `check_user_channel_access`. -/
def hasAccess_spec (plans : List TariffPlan) (users : List User)
    (subs : List Subscription) (tg c : Nat) : Bool :=
  subs.any (hasAccessRow plans users tg c)

/-- A YooKassa `payment.succeeded` webhook body, reduced to the fields
`process_payment_notification` reads: the event name, presence of the
`object`, its `status` and `paid` flags, the `metadata` ids, the amount and
the provider payment id.  The body carries **no** signature or token —
the code never reads one. -/
structure YooNotification where
  event : String
  object_present : Bool
  status : String
  paid : Bool
  user_id : Option Nat
  plan_id : Option Nat
  amount : ℚ
  payment_id : String
  deriving Repr, DecidableEq

/-- Tail of `process_payment_notification` (`src/payments/youkassa.py` lines
159-193), run after the ledger write: `SubscriptionDAL.create_subscription`
and the truthiness check on its result.  A `ValueError` from a missing plan
is caught by the outer handler and yields `false`, with the ledger write
already persisted. -/
def finishActivation (st : DBState) (u p now nextSubId : Nat) : DBState × Bool :=
  match create_subscription st.plans st.subs u p now nextSubId with
  | some (subs', _) => ({ st with subs := subs' }, true)
  | none => (st, false)

/-- `process_payment_notification(notification_data)`
(`src/payments/youkassa.py` lines 93-197).  Filters on event/status/paid and
the metadata ids (Python truthiness: a `0` id is treated as missing), resolves
the user, then: if a payment with the provider's `external_id` exists, it is
**unconditionally re-marked** `approved` with a fresh `processed_at`
(`update_payment`); otherwise a new already-`approved` ledger row is created
(requiring the RUB currency and the `youkassa` method rows).  In both cases
`create_subscription` then runs — there is no terminal-status short-circuit. -/
def process_payment_notification (st : DBState) (n : YooNotification)
    (now nextPayId nextSubId : Nat) : DBState × Bool :=
  if n.event ≠ "payment.succeeded" then (st, false)
  else if ¬ n.object_present then (st, false)
  else if n.status ≠ "succeeded" ∨ ¬ n.paid then (st, false)
  else
    match n.user_id, n.plan_id with
    | some u, some p =>
      if u == 0 || p == 0 then (st, false)
      else
        match st.users.find? (fun usr => usr.id == u) with
        | none => (st, false)
        | some _ =>
          match get_by_external_id st.payments n.payment_id with
          | some pay =>
            finishActivation
              { st with payments := update_payment_approved st.payments pay.id now }
              u p now nextSubId
          | none =>
            match st.currencies.find? (fun c => c.code == "RUB") with
            | none => (st, false)
            | some cur =>
              match st.methods.find? (fun m => m.code == "youkassa") with
              | none => (st, false)
              | some m =>
                let newPay : Payment :=
                  { id := nextPayId, user_id := u, plan_id := p,
                    payment_method_id := m.id, currency_id := cur.id,
                    amount := n.amount, external_id := some n.payment_id,
                    status := "approved", created_at := now,
                    processed_at := none, notes := none }
                finishActivation { st with payments := st.payments ++ [newPay] }
                  u p now nextSubId
    | _, _ => (st, false)

/-- Rows of `subs` that are active and joinable to Telegram user `tg`
(the rows `get_by_telegram_id` can return). -/
def activeResolvedFor (plans : List TariffPlan) (users : List User)
    (tg : Nat) (s : Subscription) : Bool :=
  s.is_active && (findPlan plans s.plan_id).isSome &&
  (match users.find? (fun u => u.id == s.user_id) with
   | some u => u.user_id == tg
   | none => false)

/-! Concrete fixtures used by witnesses and counterexamples. -/

/-- Fixture: a 30-day plan on channel 5. -/
def samplePlan : TariffPlan := { id := 1, channel_id := 5, duration_days := 30 }

/-- Fixture: a second 30-day plan, on channel 6. -/
def samplePlanB : TariffPlan := { id := 2, channel_id := 6, duration_days := 30 }

/-- Fixture: user with internal id 1, Telegram id 100. -/
def sampleUser : User := { id := 1, user_id := 100 }

/-- Fixture: the RUB currency row. -/
def sampleRUB : Currency := { id := 1, code := "RUB" }

/-- Fixture: the `youkassa` payment method with no fees. -/
def sampleMethod : PaymentMethodRow :=
  { id := 1, code := "youkassa", price_modifier := 0, fixed_fee := 0 }

/-- Fixture: an active subscription of user 1 on plan 1 ending
on day 10 at 23:59:59. -/
def sampleActiveSub : Subscription :=
  { id := 7, user_id := 1, plan_id := 1, start_date := 0,
    end_date := 10 * 86400 + 86399, is_active := true }

/-- Fixture: the same row, inactive (lapsed flag, future `end_date`). -/
def sampleInactiveSub : Subscription :=
  { id := 7, user_id := 1, plan_id := 1, start_date := 0,
    end_date := 10 * 86400 + 86399, is_active := false }

/-- Fixture: an already-`approved` ledger row with `processed_at = 5`. -/
def sampleApprovedPayment : Payment :=
  { id := 3, user_id := 1, plan_id := 1, payment_method_id := 1, currency_id := 1,
    amount := 999, external_id := some "ext1", status := "approved",
    created_at := 0, processed_at := some 5, notes := none }

/-- Fixture: an already-`rejected` ledger row. -/
def sampleRejectedPayment : Payment :=
  { id := 4, user_id := 1, plan_id := 1, payment_method_id := 1, currency_id := 1,
    amount := 999, external_id := some "ext2", status := "rejected",
    created_at := 0, processed_at := some 5, notes := none }

/-- Fixture: database holding the two terminal ledger rows above. -/
def sampleLedgerState : DBState :=
  { plans := [samplePlan], users := [sampleUser], currencies := [sampleRUB],
    methods := [sampleMethod],
    payments := [sampleApprovedPayment, sampleRejectedPayment], subs := [] }

/-- Fixture: database with no ledger rows and no subscriptions. -/
def sampleEmptyState : DBState :=
  { plans := [samplePlan], users := [sampleUser], currencies := [sampleRUB],
    methods := [sampleMethod], payments := [], subs := [] }

/-- Fixture: a well-formed `payment.succeeded` notification for user 1,
plan 1, provider payment id `"ext1"`. -/
def sampleNotification : YooNotification :=
  { event := "payment.succeeded", object_present := true, status := "succeeded",
    paid := true, user_id := some 1, plan_id := some 1, amount := 1000,
    payment_id := "ext1" }

/-- Fixture: an `approved` ledger row carrying external id `"ext1"`
(a payment already settled by a first webhook delivery). -/
def samplePaymentExt : Payment :=
  { id := 50, user_id := 1, plan_id := 1, payment_method_id := 1, currency_id := 1,
    amount := 1000, external_id := some "ext1", status := "approved",
    created_at := 259300, processed_at := none, notes := none }

/-- Fixture: database after the first settlement of `"ext1"`: one approved
ledger row and one active subscription. -/
def sampleDupState : DBState :=
  { plans := [samplePlan], users := [sampleUser], currencies := [sampleRUB],
    methods := [sampleMethod], payments := [samplePaymentExt],
    subs := [sampleActiveSub] }

/-! Helper lemmas. -/

/-- A rewriting map can only lose matches of `p` when each image satisfying
`p` came from a pre-image satisfying `p`. -/
theorem countP_map_le {α : Type} (l : List α) (f : α → α) (p : α → Bool)
    (h : ∀ x ∈ l, p (f x) = true → p x = true) :
    (l.map f).countP p ≤ l.countP p := by
  induction l with
  | nil => simp
  | cons a t ih =>
    have ht := ih (fun x hx hpx => h x (List.mem_cons_of_mem a hx) hpx)
    simp only [List.map_cons, List.countP_cons]
    split_ifs with h1 h2 h2
    · omega
    · exact absurd (h a (List.mem_cons_self a t) h1) (by simp [h2])
    · omega
    · omega

/-- A rewriting map preserving `p` pointwise preserves the match count. -/
theorem countP_map_congr {α : Type} (l : List α) (f : α → α) (p : α → Bool)
    (h : ∀ x ∈ l, p (f x) = p x) :
    (l.map f).countP p = l.countP p := by
  induction l with
  | nil => simp
  | cons a t ih =>
    have ht := ih (fun x hx => h x (List.mem_cons_of_mem a hx))
    simp only [List.map_cons, List.countP_cons, h a (List.mem_cons_self a t), ht]

/-- A row granting channel `c` has its plan id in `planIdsOfChannel plans c`. -/
theorem plan_id_mem_of_subChannel {plans : List TariffPlan} {s : Subscription} {c : Nat}
    (h : subChannel plans s = some c) :
    (planIdsOfChannel plans c).contains s.plan_id = true := by
  unfold subChannel at h
  cases hf : findPlan plans s.plan_id with
  | none => rw [hf] at h; simp at h
  | some q =>
    rw [hf] at h
    simp only [Option.map_some', Option.some.injEq] at h
    have hq : q ∈ plans := List.mem_of_find?_eq_some hf
    have hqid : q.id = s.plan_id := by simpa using List.find?_some hf
    unfold planIdsOfChannel
    simp only [List.contains_eq_any_beq, List.any_eq_true, List.mem_map, List.mem_filter]
    exact ⟨q.id, ⟨q, ⟨hq, by simp [h]⟩, rfl⟩, by simp [hqid]⟩

/-- Unfolding of the active-row predicate into its three conjuncts. -/
theorem isActiveForChannel_iff {plans : List TariffPlan} {u c : Nat} {s : Subscription} :
    isActiveForChannel plans u c s = true ↔
      s.user_id = u ∧ s.is_active = true ∧ subChannel plans s = some c := by
  unfold isActiveForChannel
  simp [Bool.and_assoc, and_assoc]

/-! Claim C3. -/

/-- C3 counterexample: terminal statuses are **not** absorbing.  On the fixture
ledger, `cancel_payment` applied to the already-`approved` payment (id 3)
flips it to `cancelled` and reports success, so a settled payment can become
cancelled afterwards, contrary to the claim. -/
theorem c3_counterexample :
    sampleApprovedPayment.status = "approved" ∧
    (cancel_payment sampleLedgerState 3 77).2 = true ∧
    (cancel_payment sampleLedgerState 3 77).1.payments.map (fun q => q.status) =
      ["cancelled", "rejected"] :=
  ⟨rfl, rfl, rfl⟩

/-- C3 (amended): the ledger enforces no terminality — `cancel_payment`
unconditionally overwrites the status of the row with the given id
(whatever it was, including `approved`) with `cancelled` and a fresh
`processed_at`, and reports success whenever the row exists. -/
theorem c3_amended_cancel_overwrites (st : DBState) (pid now : Nat) (pay : Payment)
    (hmem : pay ∈ st.payments) (hid : pay.id = pid) :
    { pay with status := "cancelled", processed_at := some now } ∈
      (cancel_payment st pid now).1.payments ∧
    (cancel_payment st pid now).2 = true := by
  constructor
  · exact List.mem_map.mpr ⟨pay, hmem, by simp [hid]⟩
  · unfold cancel_payment
    simp only [List.any_eq_true]
    exact ⟨pay, hmem, by simp [hid]⟩

/-- Witness for `c3_amended_cancel_overwrites` at the fixture ledger. -/
theorem c3_amended_cancel_overwrites_witness :
    { sampleApprovedPayment with status := "cancelled", processed_at := some 77 } ∈
      (cancel_payment sampleLedgerState 3 77).1.payments ∧
    (cancel_payment sampleLedgerState 3 77).2 = true :=
  c3_amended_cancel_overwrites sampleLedgerState 3 77 sampleApprovedPayment
    (by simp [sampleLedgerState]) rfl

/-! Claim C4. -/

/-- C4 counterexample: `approve_payment` on the already-`approved` payment
(id 3, `processed_at = 5`) returns the row with `processed_at` bumped to the
new time `77` — not "the existing row unchanged" — and on the `rejected`
payment (id 4) it does not fail but happily returns an `approved` row. -/
theorem c4_counterexample :
    (approve_payment sampleLedgerState 3 77).2 =
      some { sampleApprovedPayment with processed_at := some 77 } ∧
    sampleApprovedPayment.processed_at = some 5 ∧
    (some 77 : Option Nat) ≠ some 5 ∧
    sampleRejectedPayment.status = "rejected" ∧
    ((approve_payment sampleLedgerState 4 77).2.map (fun q => q.status)) = some "approved" :=
  ⟨rfl, rfl, by decide, rfl, rfl⟩

/-- C4 (amended): `approve_payment` is unconditional: whenever the joined
lookup succeeds it sets `status := "approved"` and `processed_at := now` on
the row, regardless of the current status (so a second approve bumps
`processed_at` again, and approve on a rejected/cancelled row silently
re-approves instead of failing); it returns `none` only when the joined
lookup fails. -/
theorem c4_amended_unconditional (st : DBState) (pid now : Nat)
    (pay : Payment) (u : User) (pl : TariffPlan) (cu : Currency) (m : PaymentMethodRow)
    (hdet : get_payment_with_details st pid = some (pay, u, pl, cu, m)) :
    (approve_payment st pid now).2 =
      some { pay with status := "approved", processed_at := some now } ∧
    (approve_payment st pid now).1.payments =
      st.payments.map (fun q =>
        if q.id == pid then { q with status := "approved", processed_at := some now } else q) ∧
    (pay.processed_at ≠ some now → (approve_payment st pid now).2 ≠ some pay) := by
  unfold approve_payment
  rw [hdet]
  refine ⟨rfl, rfl, ?_⟩
  intro hpr heq
  simp only [Option.some.injEq] at heq
  exact hpr (congrArg Payment.processed_at heq).symm

/-- Witness for `c4_amended_unconditional` at the fixture ledger. -/
theorem c4_amended_unconditional_witness :
    (approve_payment sampleLedgerState 3 77).2 =
      some { sampleApprovedPayment with status := "approved", processed_at := some 77 } ∧
    (approve_payment sampleLedgerState 3 77).2 ≠ some sampleApprovedPayment :=
  ⟨(c4_amended_unconditional sampleLedgerState 3 77 sampleApprovedPayment sampleUser
      samplePlan sampleRUB sampleMethod rfl).1,
   (c4_amended_unconditional sampleLedgerState 3 77 sampleApprovedPayment sampleUser
      samplePlan sampleRUB sampleMethod rfl).2.2 (by decide)⟩

/-! Claim C5. -/

/-- C5: renewal accrual.  When the user holds an active subscription `e` for
the plan's channel (the row the DAL's lookup query returns), activation
extends **that same row in place**: the result's row has
`end_date = endOfDay (e.end_date + duration_days)` — computed from the
existing `end_date`, not from `now` — the row count is unchanged (no new row),
the updated row is in the new list, and every other row is untouched. -/
theorem c5_renewal_accrual (plans : List TariffPlan) (subs : List Subscription)
    (u pid now nid : Nat) (plan : TariffPlan) (e : Subscription)
    (hpl : findPlan plans pid = some plan)
    (hfe : subs.find? (isActiveForChannel plans u plan.channel_id) = some e) :
    ∃ subs', create_subscription plans subs u pid now nid =
        some (subs',
          { e with end_date := endOfDay (e.end_date + plan.duration_days * secondsPerDay),
                   is_active := true }) ∧
      subs'.length = subs.length ∧
      { e with end_date := endOfDay (e.end_date + plan.duration_days * secondsPerDay),
               is_active := true } ∈ subs' ∧
      ∀ s ∈ subs, s.id ≠ e.id → s ∈ subs' := by
  refine ⟨subs.map (fun s =>
      if s.id == e.id
      then { s with end_date := endOfDay (e.end_date + plan.duration_days * secondsPerDay),
                    is_active := true } else s), ?_, ?_, ?_, ?_⟩
  · simp only [create_subscription, hpl, hfe]
  · exact List.length_map _ _
  · exact List.mem_map.mpr ⟨e, List.mem_of_find?_eq_some hfe, by simp⟩
  · intro s hs hne
    exact List.mem_map.mpr ⟨s, hs, by simp [hne]⟩

/-- Witness for `c5_renewal_accrual`: the fixture subscription ending on day
10 at 23:59:59, renewed with the 30-day plan on day 3, ends on day 40 at
23:59:59 and stays the only row. -/
theorem c5_renewal_accrual_witness :
    (create_subscription [samplePlan] [sampleActiveSub] 1 1 (3 * 86400 + 100) 99).map
        (fun r => (r.1.length, r.2.end_date, r.2.id)) =
      some (1, 40 * 86400 + 86399, 7) := by
  obtain ⟨subs', heq, hlen, -, -⟩ :=
    c5_renewal_accrual [samplePlan] [sampleActiveSub] 1 1 (3 * 86400 + 100) 99
      samplePlan sampleActiveSub rfl rfl
  rw [heq]
  simp only [Option.map_some']
  rw [hlen]
  rfl

/-! Claim C7. -/

/-- C7 counterexample: the rounding granularity is **not** per-currency.
With a 2.8% modifier and zero fee on a base price of 100,
`calculate_price_with_method` returns `102.8` (always rounded to 2 decimals,
without ever consulting a currency), whereas the claim requires a 0-decimal
(stars-like) currency to receive `round(102.8) = 103`. -/
theorem c7_rounding_counterexample :
    calculate_price_with_method
      [{ id := 1, code := "stars", price_modifier := 14 / 5, fixed_fee := 0 }] 100 1 =
      514 / 5 ∧
    roundTo 0 (100 * (1 + (14 / 5 : ℚ) / 100) + 0) = 103 ∧
    ((514 : ℚ) / 5) ≠ 103 := by
  refine ⟨?_, ?_, by norm_num⟩
  · show roundTo 2 (100 * (1 + (14 / 5 : ℚ) / 100) + 0) = 514 / 5
    norm_num [roundTo, round_eq]
  · norm_num [roundTo, round_eq]

/-- C7 (amended): `calculate_price_with_method` computes
`basePrice * (1 + price_modifier/100) + fixed_fee` and always rounds to
2 decimal places, for every currency (the claim's example
`1000 * 1.028 = 1028.00` holds); the per-currency granularity — 2 decimals
for RUB/USD/USDT, 0 for STARS, 8 for BTC/TON — applies only in
`init_default_prices_for_tariff` when deriving per-currency tariff prices. -/
theorem c7_amended_two_decimals (methods : List PaymentMethodRow) (base : ℚ)
    (mid : Nat) (m : PaymentMethodRow)
    (hm : methods.find? (fun x => x.id == mid) = some m) :
    calculate_price_with_method methods base mid =
      roundTo 2 (base * (1 + m.price_modifier / 100) + m.fixed_fee) ∧
    calculate_price_with_method
      [{ id := 1, code := "youkassa", price_modifier := 14 / 5, fixed_fee := 0 }] 1000 1 =
      1028 ∧
    convert_default_price "RUB" base = some (roundTo 2 (base * 1)) ∧
    convert_default_price "STARS" base = some (roundTo 0 (base * 10)) ∧
    convert_default_price "BTC" base = some (roundTo 8 (base * (4 / 100000000))) := by
  refine ⟨?_, ?_, rfl, rfl, rfl⟩
  · simp only [calculate_price_with_method, hm]
  · show roundTo 2 (1000 * (1 + (14 / 5 : ℚ) / 100) + 0) = 1028
    norm_num [roundTo, round_eq]

/-- Witness for `c7_amended_two_decimals` at the claim's example inputs. -/
theorem c7_amended_two_decimals_witness :
    calculate_price_with_method
      [{ id := 1, code := "youkassa", price_modifier := 14 / 5, fixed_fee := 0 }] 1000 1 =
      roundTo 2 (1000 * (1 + (14 / 5 : ℚ) / 100) + 0) :=
  (c7_amended_two_decimals
    [{ id := 1, code := "youkassa", price_modifier := 14 / 5, fixed_fee := 0 }]
    1000 1 { id := 1, code := "youkassa", price_modifier := 14 / 5, fixed_fee := 0 } rfl).1

/-! Claim C8. -/

/-- C8: the expiry sweep flips exactly the active rows with
`end_date < now` to inactive, leaves every other row unchanged (pointwise,
position by position), and returns the number of matched rows. -/
theorem c8_sweep_exact (subs : List Subscription) (now : Nat) :
    List.Forall₂ (fun s t =>
        t = if s.is_active = true ∧ s.end_date < now
            then { s with is_active := false } else s)
      subs (deactivate_expired subs now).1 ∧
    (deactivate_expired subs now).2 =
      (subs.filter (fun s => s.is_active && decide (s.end_date < now))).length := by
  constructor
  · unfold deactivate_expired
    induction subs with
    | nil => simp
    | cons a t ih =>
      simp only [List.map_cons]
      refine List.Forall₂.cons ?_ ih
      by_cases h1 : a.is_active = true
      · by_cases h2 : a.end_date < now
        · simp [h1, h2]
        · simp [h1, h2]
      · have h1' : a.is_active = false := by simpa using h1
        simp [h1']
  · unfold deactivate_expired
    exact List.countP_eq_length_filter _ _

/-! Claim C2. -/

/-- C2: activation preserves the at-most-one-active invariant.  From any
database whose row ids are distinct and which has at most one active
subscription per (user, channel), a successful `create_subscription` leaves
at most one `is_active = true` row per (user, channel): the found-branch only
rewrites the one already-active row in place, and the create-branch first
deactivates every row of the user on the plan's channel before appending the
single fresh active row. -/
theorem c2_at_most_one_active (plans : List TariffPlan) (subs : List Subscription)
    (u pid now nid : Nat) (subsNew : List Subscription) (srow : Subscription)
    (hnd : (subs.map (fun s => s.id)).Nodup)
    (hinv : ∀ a c, activeCount plans subs a c ≤ 1)
    (hrun : create_subscription plans subs u pid now nid = some (subsNew, srow)) :
    ∀ a c, activeCount plans subsNew a c ≤ 1 := by
  intro a c
  simp only [activeCount] at hinv ⊢
  cases hpl : findPlan plans pid with
  | none => simp [create_subscription, hpl] at hrun
  | some plan =>
    cases hfe : subs.find? (isActiveForChannel plans u plan.channel_id) with
    | some e =>
      simp only [create_subscription, hpl, hfe, Option.some.injEq, Prod.mk.injEq] at hrun
      obtain ⟨hs', -⟩ := hrun
      rw [← hs']
      have he_mem : e ∈ subs := List.mem_of_find?_eq_some hfe
      have he_act : e.is_active = true := by
        have h := List.find?_some hfe
        rw [isActiveForChannel_iff] at h
        exact h.2.1
      rw [countP_map_congr subs _ _ ?_]
      · exact hinv a c
      · intro x hx
        by_cases hid : (x.id == e.id) = true
        · have hxe : x = e := List.inj_on_of_nodup_map hnd hx he_mem (by simpa using hid)
          subst hxe
          rw [if_pos hid]
          simp only [isActiveForChannel, subChannel, he_act]
        · simp [hid]
    | none =>
      simp only [create_subscription, hpl, hfe, Option.some.injEq, Prod.mk.injEq] at hrun
      obtain ⟨hs', -⟩ := hrun
      rw [← hs']
      rw [List.countP_append]
      by_cases hpair : a = u ∧ c = plan.channel_id
      · obtain ⟨rfl, rfl⟩ := hpair
        have hz : (subs.map (fun s =>
            if s.user_id == a && (planIdsOfChannel plans plan.channel_id).contains s.plan_id
            then { s with is_active := false } else s)).countP
              (isActiveForChannel plans a plan.channel_id) = 0 := by
          rw [List.countP_eq_zero]
          intro x hx
          obtain ⟨y, hy, rfl⟩ := List.mem_map.mp hx
          by_cases hcond :
              (y.user_id == a && (planIdsOfChannel plans plan.channel_id).contains y.plan_id)
                = true
          · rw [if_pos hcond]
            intro hcon
            rw [isActiveForChannel_iff] at hcon
            exact absurd hcon.2.1 (by simp)
          · rw [if_neg hcond]
            intro hcon
            rw [isActiveForChannel_iff] at hcon
            obtain ⟨hu', -, hch'⟩ := hcon
            refine hcond ?_
            rw [Bool.and_eq_true]
            exact ⟨by simp [hu'], plan_id_mem_of_subChannel hch'⟩
        rw [hz]
        have hsingle : ∀ x : Subscription,
            List.countP (isActiveForChannel plans a plan.channel_id) [x] ≤ 1 := by
          intro x
          simpa using List.countP_le_length (isActiveForChannel plans a plan.channel_id)
            (l := [x])
        simpa using hsingle _
      · have hz2 : (isActiveForChannel plans a c
            { id := nid, user_id := u, plan_id := pid, start_date := startOfDay now,
              end_date := endOfDay (startOfDay now + plan.duration_days * secondsPerDay),
              is_active := true }) = false := by
          rw [Bool.eq_false_iff]
          intro hcon
          rw [isActiveForChannel_iff] at hcon
          obtain ⟨h1, -, h3⟩ := hcon
          have hch : subChannel plans
              ({ id := nid, user_id := u, plan_id := pid, start_date := startOfDay now,
                 end_date := endOfDay (startOfDay now + plan.duration_days * secondsPerDay),
                 is_active := true } : Subscription) = some plan.channel_id := by
            simp only [subChannel, hpl, Option.map_some']
          rw [hch] at h3
          exact hpair ⟨h1.symm, (Option.some.injEq _ _ ▸ h3).symm⟩
        have hle : (subs.map (fun s =>
            if s.user_id == u && (planIdsOfChannel plans plan.channel_id).contains s.plan_id
            then { s with is_active := false } else s)).countP
              (isActiveForChannel plans a c) ≤ subs.countP (isActiveForChannel plans a c) := by
          refine countP_map_le subs _ _ ?_
          intro x hx hpx
          by_cases hcond :
              (x.user_id == u && (planIdsOfChannel plans plan.channel_id).contains x.plan_id)
                = true
          · rw [if_pos hcond] at hpx
            rw [isActiveForChannel_iff] at hpx
            exact absurd hpx.2.1 (by simp)
          · rwa [if_neg hcond] at hpx
        have hone : List.countP (isActiveForChannel plans a c)
            [({ id := nid, user_id := u, plan_id := pid, start_date := startOfDay now,
                end_date := endOfDay (startOfDay now + plan.duration_days * secondsPerDay),
                is_active := true } : Subscription)] = 0 := by
          rw [List.countP_eq_zero]
          intro x hx
          rw [List.mem_singleton] at hx
          subst hx
          simp [hz2]
        rw [hone]
        have := hinv a c
        omega

/-- Witness for `c2_at_most_one_active`: activating plan 1 for user 1 on an
empty table yields a table with at most one active row for (user 1,
channel 5). -/
theorem c2_at_most_one_active_witness :
    activeCount [samplePlan]
      [{ id := 99, user_id := 1, plan_id := 1, start_date := 259200,
         end_date := 2937599, is_active := true }] 1 5 ≤ 1 :=
  c2_at_most_one_active [samplePlan] [] 1 1 (3 * 86400 + 100) 99
    [{ id := 99, user_id := 1, plan_id := 1, start_date := 259200,
       end_date := 2937599, is_active := true }]
    { id := 99, user_id := 1, plan_id := 1, start_date := 259200,
      end_date := 2937599, is_active := true }
    (by simp) (fun a c => by simp [activeCount]) (by decide) 1 5

/-! Claim C6. -/

/-- C6 counterexample: activation does **not** extend an inactive subscription
whose `end_date` is still in the future.  The fixture row is inactive with
`end_date` on day 10 (the future: `now` is on day 3), yet
`create_subscription` deactivates it and creates a fresh grant ending on day
33 at 23:59:59 — not the claimed extension to day 40 at 23:59:59. -/
theorem c6_lapsed_counterexample :
    sampleInactiveSub.is_active = false ∧
    (3 * 86400 + 100 : Nat) < sampleInactiveSub.end_date ∧
    create_subscription [samplePlan] [sampleInactiveSub] 1 1 (3 * 86400 + 100) 99 =
      some ([sampleInactiveSub,
             { id := 99, user_id := 1, plan_id := 1, start_date := 259200,
               end_date := 2937599, is_active := true }],
        { id := 99, user_id := 1, plan_id := 1, start_date := 259200,
          end_date := 2937599, is_active := true }) ∧
    (2937599 : Nat) ≠ endOfDay (sampleInactiveSub.end_date + 30 * secondsPerDay) :=
  ⟨rfl, by decide, by decide, by decide⟩

/-- C6 (amended): whenever the user has **no active** subscription for the
plan's channel, activation always creates a fresh grant with
`start_date = start of the current day` and
`end_date = 23:59:59 of (start + duration_days)` — regardless of any inactive
row's `end_date`, which row is merely deactivated in place; extension of an
inactive row from a still-future `end_date` exists only in the separate
`extend_subscription` operation, which does extend from `end_date` when
`end_date ≥ start of today` and restarts from today otherwise. -/
theorem c6_amended_fresh_grant (plans : List TariffPlan) (subs : List Subscription)
    (u pid now nid : Nat) (plan : TariffPlan)
    (hpl : findPlan plans pid = some plan)
    (hfe : subs.find? (isActiveForChannel plans u plan.channel_id) = none) :
    (∃ subsNew newSub,
      create_subscription plans subs u pid now nid = some (subsNew, newSub) ∧
      newSub.start_date = startOfDay now ∧
      newSub.end_date = endOfDay (startOfDay now + plan.duration_days * secondsPerDay) ∧
      newSub.is_active = true ∧
      subsNew.length = subs.length + 1 ∧
      ∀ s ∈ subs, s.user_id = u → subChannel plans s = some plan.channel_id →
        { s with is_active := false } ∈ subsNew) ∧
    (∀ sid days tnow s, subs.find? (fun t => t.id == sid) = some s →
      s.is_active = false →
      (extend_subscription subs sid days tnow).map (fun r => r.2.end_date) =
        some (if startOfDay tnow ≤ s.end_date
              then endOfDay (s.end_date + days * secondsPerDay)
              else endOfDay (startOfDay tnow + days * secondsPerDay))) := by
  constructor
  · refine ⟨subs.map (fun s =>
        if s.user_id == u && (planIdsOfChannel plans plan.channel_id).contains s.plan_id
        then { s with is_active := false } else s) ++
          [{ id := nid, user_id := u, plan_id := pid, start_date := startOfDay now,
             end_date := endOfDay (startOfDay now + plan.duration_days * secondsPerDay),
             is_active := true }],
      { id := nid, user_id := u, plan_id := pid, start_date := startOfDay now,
        end_date := endOfDay (startOfDay now + plan.duration_days * secondsPerDay),
        is_active := true }, ?_, rfl, rfl, rfl, ?_, ?_⟩
    · simp only [create_subscription, hpl, hfe]
    · simp
    · intro s hs hu hch
      refine List.mem_append.mpr (Or.inl (List.mem_map.mpr ⟨s, hs, ?_⟩))
      rw [if_pos]
      rw [Bool.and_eq_true]
      exact ⟨by simp [hu], plan_id_mem_of_subChannel hch⟩
  · intro sid days tnow s hfs hina
    simp only [extend_subscription, hfs, hina, Bool.false_eq_true, if_false,
      Option.map_some']

/-! Claim C10. -/

/-- A join row is `none` exactly when the subscription is not an active,
fully-joinable row of the Telegram user. -/
theorem joinRow_none_iff {plans : List TariffPlan} {users : List User}
    {tg : Nat} {s : Subscription} :
    joinRow plans users tg s = none ↔ activeResolvedFor plans users tg s = false := by
  unfold joinRow activeResolvedFor
  cases hf : findPlan plans s.plan_id with
  | none => simp [hf]
  | some p =>
    cases hu : users.find? (fun u => u.id == s.user_id) with
    | none => simp [hf, hu]
    | some u =>
      cases hA : s.is_active <;> cases hT : (u.user_id == tg) <;> simp [hf, hu, hA, hT]

/-- Contents of a successful join row. -/
theorem joinRow_eq_some {plans : List TariffPlan} {users : List User}
    {tg : Nat} {s : Subscription} {r : Subscription × TariffPlan × User}
    (h : joinRow plans users tg s = some r) :
    r.1 = s ∧ findPlan plans s.plan_id = some r.2.1 ∧ r.2.2.user_id = tg ∧
      s.is_active = true ∧
      users.find? (fun u => u.id == s.user_id) = some r.2.2 := by
  unfold joinRow at h
  cases hf : findPlan plans s.plan_id with
  | none => rw [hf] at h; simp at h
  | some p =>
    cases hu : users.find? (fun u => u.id == s.user_id) with
    | none => simp [hf, hu] at h
    | some u =>
      simp only [hf, hu] at h
      by_cases hc : (u.user_id == tg && s.is_active) = true
      · rw [if_pos hc] at h
        have hc' := hc
        rw [Bool.and_eq_true] at hc'
        obtain ⟨h1, h2⟩ := hc'
        obtain rfl : (s, p, u) = r := Option.some.inj h
        exact ⟨rfl, rfl, by simpa using h1, h2, rfl⟩
      · rw [if_neg hc] at h; simp at h

/-- A row witnessing the spec's `hasAccess` is active and joinable. -/
theorem activeResolved_of_hasAccessRow {plans : List TariffPlan} {users : List User}
    {tg c : Nat} {s : Subscription}
    (h : hasAccessRow plans users tg c s = true) :
    activeResolvedFor plans users tg s = true := by
  unfold hasAccessRow at h
  rw [Bool.and_eq_true, Bool.and_eq_true] at h
  obtain ⟨⟨h1, h2⟩, h3⟩ := h
  have hch : subChannel plans s = some c := by simpa using h3
  have hsome : (findPlan plans s.plan_id).isSome = true := by
    unfold subChannel at hch
    obtain ⟨p, hp, -⟩ := Option.map_eq_some'.mp hch
    simp [hp]
  unfold activeResolvedFor
  rw [h1, hsome]
  simpa using h2

/-- C10 counterexample: with two simultaneously active subscriptions (plan 1
→ channel 5 listed first, plan 2 → channel 6 second), the access check for
channel 6 returns `false` — it only ever inspects the first fetched active
row — although an active subscription granting channel 6 exists, so the
claimed equivalence fails. -/
theorem c10_first_row_counterexample :
    check_user_channel_access [samplePlan, samplePlanB] [sampleUser]
      [{ id := 1, user_id := 1, plan_id := 1, start_date := 0,
         end_date := 999999, is_active := true },
       { id := 2, user_id := 1, plan_id := 2, start_date := 0,
         end_date := 999999, is_active := true }] 100 6 = false ∧
    hasAccess_spec [samplePlan, samplePlanB] [sampleUser]
      [{ id := 1, user_id := 1, plan_id := 1, start_date := 0,
         end_date := 999999, is_active := true },
       { id := 2, user_id := 1, plan_id := 2, start_date := 0,
         end_date := 999999, is_active := true }] 100 6 = true :=
  ⟨rfl, rfl⟩

/-- C10 (amended): `check_user_channel_access` inspects only the first
active joined subscription of the user, so it agrees with the spec's
existential `hasAccess` exactly on databases where the user holds **at most
one** active (joinable) subscription row; with several simultaneously active
subscriptions on different channels it can deny access the spec grants. -/
theorem c10_amended_unique_active (plans : List TariffPlan) (users : List User)
    (subs : List Subscription) (tg c : Nat)
    (h : subs.countP (activeResolvedFor plans users tg) ≤ 1) :
    check_user_channel_access plans users subs tg c = hasAccess_spec plans users subs tg c := by
  induction subs with
  | nil => rfl
  | cons s t ih =>
    rw [List.countP_cons] at h
    unfold check_user_channel_access get_by_telegram_id hasAccess_spec
    rw [List.findSome?_cons, List.any_cons]
    cases hj : joinRow plans users tg s with
    | none =>
      have har : activeResolvedFor plans users tg s = false := joinRow_none_iff.mp hj
      have hpred : hasAccessRow plans users tg c s = false := by
        rw [Bool.eq_false_iff]
        intro hcon
        rw [activeResolved_of_hasAccessRow hcon] at har
        simp at har
      rw [hpred]
      simp only [Bool.false_or]
      rw [har] at h
      simp only [Bool.false_eq_true, if_false, Nat.add_zero] at h
      exact ih h
    | some r =>
      obtain ⟨hr1, hfp, hrtg, hact, hfu⟩ := joinRow_eq_some hj
      have har : activeResolvedFor plans users tg s = true := by
        unfold activeResolvedFor
        rw [hact, hfu]
        simp [hfp, hrtg]
      have hsc : subChannel plans s = some r.2.1.channel_id := by
        unfold subChannel; rw [hfp]; rfl
      have htg : (r.2.2.user_id == tg) = true := by simp [hrtg]
      have hrow : hasAccessRow plans users tg c s = (r.2.1.channel_id == c) := by
        unfold hasAccessRow
        rw [hact, hsc, hfu]
        show ((true && (r.2.2.user_id == tg)) && (some r.2.1.channel_id == some c))
            = (r.2.1.channel_id == c)
        rw [htg]
        show (some r.2.1.channel_id == some c) = (r.2.1.channel_id == c)
        rfl
      rw [har] at h
      have hz : t.countP (activeResolvedFor plans users tg) = 0 := by
        rw [if_pos rfl] at h
        omega
      have hanyf : t.any (hasAccessRow plans users tg c) = false := by
        cases ha : t.any (hasAccessRow plans users tg c) with
        | false => rfl
        | true =>
          obtain ⟨x, hx, hxrow⟩ := List.any_eq_true.mp ha
          have h1 := activeResolved_of_hasAccessRow hxrow
          have h2 := List.countP_eq_zero.mp hz x hx
          simp [h1] at h2
      rw [hanyf, Bool.or_false, hrow]

/-- Witness for `c10_amended_unique_active`: with a single active
subscription the check agrees with the spec's `hasAccess`. -/
theorem c10_amended_unique_active_witness :
    check_user_channel_access [samplePlan] [sampleUser] [sampleActiveSub] 100 5 =
      hasAccess_spec [samplePlan] [sampleUser] [sampleActiveSub] 100 5 :=
  c10_amended_unique_active [samplePlan] [sampleUser] [sampleActiveSub] 100 5 (by decide)

/-- Witness for `c6_amended_fresh_grant` at the fixture: the fresh grant runs
from day 3 (start 259200, end 2937599, two rows total), while
`extend_subscription` on the same inactive future-dated row does extend from
its `end_date`. -/
theorem c6_amended_fresh_grant_witness :
    (create_subscription [samplePlan] [sampleInactiveSub] 1 1 (3 * 86400 + 100) 99).map
        (fun r => (r.2.start_date, r.2.end_date, r.1.length)) =
      some (259200, 2937599, 2) ∧
    (extend_subscription [sampleInactiveSub] 7 30 (3 * 86400 + 100)).map
        (fun r => r.2.end_date) =
      some (endOfDay (sampleInactiveSub.end_date + 30 * secondsPerDay)) := by
  obtain ⟨⟨subsNew, newSub, heq, h1, h2, -, h4, -⟩, hext⟩ :=
    c6_amended_fresh_grant [samplePlan] [sampleInactiveSub] 1 1 (3 * 86400 + 100) 99
      samplePlan rfl rfl
  constructor
  · rw [heq]
    simp only [Option.map_some']
    rw [h1, h2, h4]
    rfl
  · have hx := hext 7 30 (3 * 86400 + 100) sampleInactiveSub rfl rfl
    rw [hx, if_pos (by decide)]

/-! Claim C1. -/

/-- C1 counterexample: the reconciler does **not** short-circuit on an
already-settled `external_id`.  Processing the same `payment.succeeded`
notification twice from an empty database keeps a single approved ledger row,
but the second call again returns `true` **and** extends the subscription a
second time (end day 33 → day 63), i.e. it does perform further state
changes, contrary to the claim. -/
theorem c1_dedup_counterexample :
    (process_payment_notification sampleEmptyState sampleNotification
        (3 * 86400 + 100) 50 60).2 = true ∧
    ((process_payment_notification sampleEmptyState sampleNotification
        (3 * 86400 + 100) 50 60).1.payments.map (fun q => (q.id, q.status))) =
      [(50, "approved")] ∧
    ((process_payment_notification sampleEmptyState sampleNotification
        (3 * 86400 + 100) 50 60).1.subs.map (fun s => s.end_date)) =
      [33 * 86400 + 86399] ∧
    (process_payment_notification
        (process_payment_notification sampleEmptyState sampleNotification
          (3 * 86400 + 100) 50 60).1
        sampleNotification (3 * 86400 + 200) 51 61).2 = true ∧
    ((process_payment_notification
        (process_payment_notification sampleEmptyState sampleNotification
          (3 * 86400 + 100) 50 60).1
        sampleNotification (3 * 86400 + 200) 51 61).1.payments.map
          (fun q => (q.id, q.status))) = [(50, "approved")] ∧
    ((process_payment_notification
        (process_payment_notification sampleEmptyState sampleNotification
          (3 * 86400 + 100) 50 60).1
        sampleNotification (3 * 86400 + 200) 51 61).1.subs.map
          (fun s => s.end_date)) = [63 * 86400 + 86399] ∧
    (63 * 86400 + 86399 : Nat) ≠ 33 * 86400 + 86399 :=
  ⟨rfl, rfl, rfl, rfl, rfl, rfl, by decide⟩

/-- C1 (amended): on a duplicate `paid` notification whose `external_id`
already has a ledger row, the reconciler keeps exactly one ledger row
(re-marking it `approved` with a fresh `processed_at`, creating no second
row) and returns `true`, but it does **not** stop there: it runs
`create_subscription` again, so the subscription is extended once per
delivered notification rather than once per payment. -/
theorem c1_amended_no_dedup (st : DBState) (n : YooNotification)
    (now npid nsid u p : Nat) (pay : Payment) (usr : User)
    (subsNew : List Subscription) (srow : Subscription)
    (he : n.event = "payment.succeeded") (ho : n.object_present = true)
    (hs : n.status = "succeeded") (hpd : n.paid = true)
    (hu : n.user_id = some u) (hp : n.plan_id = some p)
    (hu0 : (u == 0 || p == 0) = false)
    (husr : st.users.find? (fun x => x.id == u) = some usr)
    (hpay : get_by_external_id st.payments n.payment_id = some pay)
    (hact : create_subscription st.plans st.subs u p now nsid = some (subsNew, srow)) :
    process_payment_notification st n now npid nsid =
      ({ st with payments := update_payment_approved st.payments pay.id now,
                 subs := subsNew }, true) ∧
    (update_payment_approved st.payments pay.id now).length = st.payments.length := by
  constructor
  · unfold process_payment_notification finishActivation
    rw [he, ho, hs, hpd, hu, hp]
    simp only [ne_eq, not_true_eq_false, if_false, ite_false, or_self,
      Bool.not_true, hu0, Bool.false_eq_true, husr, hpay]
    have hact' : create_subscription
        ({ st with payments := update_payment_approved st.payments pay.id now }).plans
        ({ st with payments := update_payment_approved st.payments pay.id now }).subs
        u p now nsid = some (subsNew, srow) := hact
    rw [hact']
  · unfold update_payment_approved
    exact List.length_map _ _

/-- Witness for `c1_amended_no_dedup`: the duplicate delivery of `"ext1"`
against the already-settled fixture state re-approves ledger row 50 and
re-extends subscription 7 to day 40. -/
theorem c1_amended_no_dedup_witness :
    process_payment_notification sampleDupState sampleNotification
        (3 * 86400 + 200) 51 61 =
      ({ sampleDupState with
          payments := update_payment_approved sampleDupState.payments 50 (3 * 86400 + 200),
          subs := [{ id := 7, user_id := 1, plan_id := 1, start_date := 0,
                     end_date := 40 * 86400 + 86399, is_active := true }] }, true) ∧
    (update_payment_approved sampleDupState.payments 50 (3 * 86400 + 200)).length =
      sampleDupState.payments.length :=
  c1_amended_no_dedup sampleDupState sampleNotification (3 * 86400 + 200) 51 61 1 1
    samplePaymentExt sampleUser
    [{ id := 7, user_id := 1, plan_id := 1, start_date := 0,
       end_date := 40 * 86400 + 86399, is_active := true }]
    { id := 7, user_id := 1, plan_id := 1, start_date := 0,
      end_date := 40 * 86400 + 86399, is_active := true }
    rfl rfl rfl rfl rfl rfl rfl rfl rfl (by decide)

/-! Claim C9. -/

/-- C9: the YooKassa notification body read by the code carries no signature
or token at all (`YooNotification` has no credential field because
`process_payment_notification` never reads one, and the webhook route marks
the signature check as a TODO), yet processing such an unverified
notification settles a payment and activates a subscription: the claim that
every notification is verified before being acted upon is violated by the
code. -/
theorem c9_unverified_settlement :
    (process_payment_notification sampleEmptyState sampleNotification
        (3 * 86400 + 100) 50 60).2 = true ∧
    (process_payment_notification sampleEmptyState sampleNotification
        (3 * 86400 + 100) 50 60).1.subs ≠ sampleEmptyState.subs ∧
    ((process_payment_notification sampleEmptyState sampleNotification
        (3 * 86400 + 100) 50 60).1.payments.map (fun q => q.status)) = ["approved"] :=
  ⟨rfl, by decide, rfl⟩
